import Mathlib

/-!
Verification of the Simetrio TUI (`simetrio_tui.py`): a shallow embedding of
its command builder, worker runner, confirmation gate, dependency flow, log
buffer and clipboard exporter, together with theorems settling the spec
claims about them.

External effects (filesystem existence checks, spawned processes, widget
values) are represented by explicit environments; each spawned process is
recorded in a trace, and its exit code and output lines are drawn from the
environment, indexed by the position of the spawn in the trace.
-/

set_option maxHeartbeats 1000000
set_option maxRecDepth 8000

namespace Simetrio

/-- Python `str.strip()` (default whitespace), used on the text form
fields and the image path. -/
def pyStrip (s : String) : String :=
  String.mk (((s.data.dropWhile Char.isWhitespace).reverse.dropWhile Char.isWhitespace).reverse)

/-- Python `str.rstrip()` (default whitespace), as applied to streamed
subprocess lines before logging. -/
def pyRstrip (s : String) : String :=
  String.mk ((s.data.reverse.dropWhile Char.isWhitespace).reverse)

/-- Worker for `pySplitlines`: scans the character list, splitting at
newline, carriage return, or a CRLF pair, accumulating the current line
reversed. A terminator at the end of input does not produce a final empty
line, matching Python `str.splitlines()`. -/
def splitlinesAux : List Char → List Char → List String
  | [], [] => []
  | [], cur => [String.mk cur.reverse]
  | '\r' :: '\n' :: rest, cur => String.mk cur.reverse :: splitlinesAux rest []
  | '\r' :: rest, cur => String.mk cur.reverse :: splitlinesAux rest []
  | '\n' :: rest, cur => String.mk cur.reverse :: splitlinesAux rest []
  | c :: rest, cur => splitlinesAux rest (c :: cur)

/-- Python `str.splitlines()` restricted to the `\n`, `\r`, `\r\n`
terminators (the only ones that occur in this program's log traffic). -/
def pySplitlines (s : String) : List String :=
  splitlinesAux s.data []

/-- Whether `p` is an initial segment of `s` (Boolean, on character lists). -/
def isPre : List Char → List Char → Bool
  | [], _ => true
  | _ :: _, [] => false
  | a :: as, b :: bs => a == b && isPre as bs

/-- Whether `pat` occurs contiguously somewhere in the character list. -/
def hasSub (pat : List Char) : List Char → Bool
  | [] => pat.isEmpty
  | c :: t => isPre pat (c :: t) || hasSub pat t

/-- Python `pat in hay` on strings: contiguous substring occurrence. -/
def strHas (hay pat : String) : Bool :=
  hasSub pat.data hay.data

/-- The three places the program can look for a script: the `bin`
directory, the `scripts` directory, and the repository root. -/
inductive Loc
  | binDir
  | scriptsDir
  | rootDir
deriving DecidableEq, Repr

/-- Abstract filesystem as the program observes it: whether `REPO_ROOT/bin`
exists as a directory, which named files exist at each of the three
locations, and the repository root path (for rendering path strings). -/
structure Fs where
  binExists : Bool
  hasFile : Loc → String → Bool
  root : String

/-- `SCRIPTS_DIR` selection (module scope, lines 52-56): `bin` if the `bin`
directory exists, else `scripts`. Chosen once, from directory existence,
not per script. -/
def selDir (fs : Fs) : Loc :=
  if fs.binExists then Loc.binDir else Loc.scriptsDir

/-- Render the path of `name` at a location, as the Python `Path` values
`SCRIPTS_DIR / name` and `REPO_ROOT / name` would print. -/
def pathStr (fs : Fs) (l : Loc) (name : String) : String :=
  match l with
  | Loc.binDir => fs.root ++ "/bin/" ++ name
  | Loc.scriptsDir => fs.root ++ "/scripts/" ++ name
  | Loc.rootDir => fs.root ++ "/" ++ name

/-- `script_path` (lines 59-67): try `SCRIPTS_DIR / name`, then
`REPO_ROOT / name`; `none` models the raised `FileNotFoundError`. -/
def script_path (fs : Fs) (name : String) : Option String :=
  if fs.hasFile (selDir fs) name then some (pathStr fs (selDir fs) name)
  else if fs.hasFile Loc.rootDir name then some (pathStr fs Loc.rootDir name)
  else none

/-- The message of the `FileNotFoundError` raised by `script_path`. -/
def notFoundMsg (fs : Fs) (name : String) : String :=
  "Required script not found: " ++ pathStr fs (selDir fs) name ++ " or " ++
    pathStr fs Loc.rootDir name

/-- The result of one spawned child process: exit code and the raw lines
of its merged stdout/stderr stream (each as Python's line iterator yields
it, normally terminated by a newline). -/
structure ProcRes where
  exitCode : Int
  lines : List String

/-- FormParams: the dictionary built by `_gather_params` (lines 251-273). -/
structure Params where
  name : String
  mem : String
  cpus : String
  disk : String
  kde : Bool
  calamares : Bool
  installPython : Bool
  installSystem : Bool
  elevate : Bool
deriving DecidableEq, Repr

/-- The environment the app reads from: the abstract filesystem,
`sys.executable`, the result of the n-th process spawned in a trace, and
the current raw widget values (`#inst_name`, `#mem`, `#cpus`, `#disk` text
inputs and the five checkboxes). -/
structure Env where
  fs : Fs
  pythonExe : String
  results : Nat → ProcRes
  instName : String
  mem : String
  cpus : String
  disk : String
  kde : Bool
  calamares : Bool
  installPython : Bool
  installSystem : Bool
  elevate : Bool

/-- `value.strip() or default`: the stripped field when non-empty, else the
default. -/
def orDefault (v d : String) : String :=
  if pyStrip v = "" then d else pyStrip v

/-- `_gather_params` (lines 251-273): strip each text field and substitute
its default when empty; checkboxes pass through. -/
def gather_params (env : Env) : Params :=
  { name := orDefault env.instName "stralyx"
    mem := orDefault env.mem "4G"
    cpus := orDefault env.cpus "2"
    disk := orDefault env.disk "20G"
    kde := env.kde
    calamares := env.calamares
    installPython := env.installPython
    installSystem := env.installSystem
    elevate := env.elevate }

/-- The six primary actions the menu can select. -/
inductive Action
  | build
  | novnc
  | clean
  | stop
  | check
  | deps
deriving DecidableEq, Repr

/-- Failures of command construction inside `_worker`:
`unresolvedScript` models the `FileNotFoundError` from `script_path`
(carrying its message), `missingRequiredField` the empty image path for
the noVNC action. -/
inductive WErr
  | unresolvedScript (msg : String)
  | missingRequiredField
deriving DecidableEq, Repr

/-- The command-construction part of `_worker` (lines 332-360): maps the
selected action and gathered params to the argv list, or to the error the
code raises/reports. The image path for `novnc` is read from the raw
`#inst_name` widget value, stripped, not from params. -/
def worker_cmd (env : Env) (a : Action) (p : Params) : Except WErr (List String) :=
  match a with
  | Action.build =>
    match script_path env.fs "multipass-run.sh" with
    | none => Except.error (WErr.unresolvedScript (notFoundMsg env.fs "multipass-run.sh"))
    | some bp =>
      Except.ok ([bp, "--name", p.name, "--mem", p.mem, "--cpus", p.cpus, "--disk", p.disk]
        ++ (if p.kde then ["--with-kde"] else [])
        ++ (if p.calamares then ["--with-calamares"] else []))
  | Action.novnc =>
    if pyStrip env.instName = "" then Except.error WErr.missingRequiredField
    else
      match script_path env.fs "novnc-run.sh" with
      | none => Except.error (WErr.unresolvedScript (notFoundMsg env.fs "novnc-run.sh"))
      | some np => Except.ok [np, pyStrip env.instName]
  | Action.clean =>
    match script_path env.fs "clean-build.sh" with
    | none => Except.error (WErr.unresolvedScript (notFoundMsg env.fs "clean-build.sh"))
    | some cp => Except.ok [cp, "--yes", "--remove-instance", "--instance-name", p.name]
  | Action.stop =>
    match script_path env.fs "stop-novnc.sh" with
    | none => Except.error (WErr.unresolvedScript (notFoundMsg env.fs "stop-novnc.sh"))
    | some sp => Except.ok [sp]
  | Action.check =>
    match script_path env.fs "simetrio" with
    | none => Except.error (WErr.unresolvedScript (notFoundMsg env.fs "simetrio"))
    | some mp => Except.ok [env.pythonExe, mp, "check"]
  | Action.deps =>
    match script_path env.fs "simetrio" with
    | none => Except.error (WErr.unresolvedScript (notFoundMsg env.fs "simetrio"))
    | some mp =>
      Except.ok ([env.pythonExe, mp, "deps"]
        ++ (if p.installPython then ["--install-python"] else [])
        ++ (if p.installSystem then ["--install-binaries"] else [])
        ++ (if p.elevate then ["--elevate"] else []))

@[simp] lemma pyStrip_eq_empty : pyStrip "" = "" := by decide

/-- Claim C1: with all form fields empty (so every default applies) and the
external scripts resolvable, the command builder produces exactly the
documented executable and argument list for each action: Build gets the
four default flags and no optional flags, Clean/Stop/Check/Deps their
documented argv, and RunDisplay (whose required image path is empty at
defaults) the documented `MissingRequiredField` failure. -/
theorem builder_defaults (env : Env) (bp cp sp mp : String)
    (h1 : env.instName = "") (h2 : env.mem = "") (h3 : env.cpus = "")
    (h4 : env.disk = "") (h5 : env.kde = false) (h6 : env.calamares = false)
    (h7 : env.installPython = false) (h8 : env.installSystem = false)
    (h9 : env.elevate = false)
    (hb : script_path env.fs "multipass-run.sh" = some bp)
    (hc : script_path env.fs "clean-build.sh" = some cp)
    (hs : script_path env.fs "stop-novnc.sh" = some sp)
    (hm : script_path env.fs "simetrio" = some mp) :
    worker_cmd env Action.build (gather_params env) =
      Except.ok [bp, "--name", "stralyx", "--mem", "4G", "--cpus", "2", "--disk", "20G"] ∧
    worker_cmd env Action.novnc (gather_params env) = Except.error WErr.missingRequiredField ∧
    worker_cmd env Action.clean (gather_params env) =
      Except.ok [cp, "--yes", "--remove-instance", "--instance-name", "stralyx"] ∧
    worker_cmd env Action.stop (gather_params env) = Except.ok [sp] ∧
    worker_cmd env Action.check (gather_params env) = Except.ok [env.pythonExe, mp, "check"] ∧
    worker_cmd env Action.deps (gather_params env) = Except.ok [env.pythonExe, mp, "deps"] := by
  refine ⟨?_, ?_, ?_, ?_, ?_, ?_⟩ <;>
    simp [worker_cmd, gather_params, orDefault, h1, h2, h3, h4, h5, h6, h7, h8, h9,
      hb, hc, hs, hm, pyStrip_eq_empty]

/-- A concrete filesystem in which everything exists (under `bin`). -/
def allFs : Fs :=
  { binExists := true, hasFile := fun _ _ => true, root := "/repo" }

/-- A concrete environment: empty fields, all toggles off, every spawned
process exits 0 printing one line. -/
def defEnv : Env :=
  { fs := allFs, pythonExe := "python3", results := fun _ => ⟨0, ["ok\n"]⟩
    instName := "", mem := "", cpus := "", disk := "", kde := false
    calamares := false, installPython := false, installSystem := false
    elevate := false }

theorem builder_defaults_witness :
    worker_cmd defEnv Action.build (gather_params defEnv) =
      Except.ok ["/repo/bin/multipass-run.sh", "--name", "stralyx", "--mem", "4G",
        "--cpus", "2", "--disk", "20G"] ∧
    worker_cmd defEnv Action.novnc (gather_params defEnv) =
      Except.error WErr.missingRequiredField :=
  ⟨(builder_defaults defEnv "/repo/bin/multipass-run.sh" "/repo/bin/clean-build.sh"
      "/repo/bin/stop-novnc.sh" "/repo/bin/simetrio" rfl rfl rfl rfl rfl rfl rfl rfl rfl
      (by decide) (by decide) (by decide) (by decide)).1,
   (builder_defaults defEnv "/repo/bin/multipass-run.sh" "/repo/bin/clean-build.sh"
      "/repo/bin/stop-novnc.sh" "/repo/bin/simetrio" rfl rfl rfl rfl rfl rfl rfl rfl rfl
      (by decide) (by decide) (by decide) (by decide)).2.1⟩

/-- UI/worker state: the `running` reactive latch, the `_elevate_pending`
confirmation flag, the currently selected action (`self.action`, unset at
startup), the trace of spawned child processes (each an argv list), and
the chronological list of texts passed to `_append_log`. -/
structure AppState where
  running : Bool
  elevatePending : Bool
  selAction : Option Action
  spawned : List (List String)
  log : List String

/-- One `_append_log(msg)` call, viewed as an event on the app state. -/
def appLog (s : AppState) (m : String) : AppState :=
  { s with log := s.log ++ [m] }

/-- `_worker` (lines 330-385): construct the command; on a missing image
path log the warning and return; on an unresolvable script the raised
`FileNotFoundError` is caught by the `except` clause, which logs
`Worker error: ...`; otherwise log the command, spawn it (its result drawn
from the environment at the current trace position), stream its rstripped
output lines to the log, and log the exit code. The `finally` clause
resets `running` to `False` on every path. -/
def worker (env : Env) (a : Action) (p : Params) (s : AppState) : AppState :=
  let s1 :=
    match worker_cmd env a p with
    | Except.error WErr.missingRequiredField =>
      appLog s "Image path required for noVNC"
    | Except.error (WErr.unresolvedScript m) =>
      appLog s ("Worker error: " ++ m)
    | Except.ok cmd =>
      let sA := appLog s ("Running: " ++ String.intercalate " " cmd)
      let r := env.results sA.spawned.length
      let sB := { sA with spawned := sA.spawned ++ [cmd],
                          log := sA.log ++ r.lines.map pyRstrip }
      appLog sB ("Process exited with " ++ toString r.exitCode)
  { s1 with running := false }

/-- `_run_action` (lines 322-328): refuse with a busy message while
`running` is true; otherwise set `running` and hand over to the worker
(modelled sequentially: the returned state is the state after the worker
thread has completed). -/
def run_action (env : Env) (a : Action) (p : Params) (s : AppState) : AppState :=
  if s.running then
    appLog s "Another task is running; please wait or stop it first."
  else
    worker env a p { s with running := true }

/-- The `run_selected` branch of `on_button_pressed` (lines 215-233):
require a selected action, gather params, and for an elevated Deps install
(elevate toggle together with a python- or system-install toggle) pass
through the two-step confirmation latch `_elevate_pending` before calling
`_run_action`. -/
def run_selected (env : Env) (s : AppState) : AppState :=
  match s.selAction with
  | none => appLog s "No action selected. Choose one of the menu buttons first."
  | some a =>
    let p := gather_params env
    if (a == Action.deps) && (p.installPython || p.installSystem) && p.elevate then
      if !s.elevatePending then
        appLog (appLog { s with elevatePending := true }
            "You have requested an elevated installation (sudo).")
          "To confirm, click 'Run Selected' again. This prevents accidental sudo usage."
      else
        run_action env a p { s with elevatePending := false }
    else
      run_action env a p s

/-- Claim C2: while `running` is true a second `_run_action` call only logs
the busy message (no spawn, no other state change); and whenever a worker
actually runs (latch was free), `running` is false again afterwards — on
every path of the worker, including command-construction failures, for any
exit code. -/
theorem worker_exclusion_and_latch (env : Env) (a : Action) (p : Params) (s : AppState) :
    (s.running = true →
      run_action env a p s =
        appLog s "Another task is running; please wait or stop it first.") ∧
    (s.running = false → (run_action env a p s).running = false) := by
  constructor
  · intro h
    simp [run_action, h]
  · intro h
    simp only [run_action, h, if_false, Bool.false_eq_true]
    rfl

/-- A state with no task running and the Build action selected. -/
def idleState : AppState :=
  { running := false, elevatePending := false, selAction := some Action.build
    spawned := [], log := [] }

/-- The same state with the `running` latch held. -/
def busyState : AppState :=
  { idleState with running := true }

theorem worker_exclusion_and_latch_witness :
    run_action defEnv Action.build (gather_params defEnv) busyState =
      appLog busyState "Another task is running; please wait or stop it first." ∧
    (run_action defEnv Action.build (gather_params defEnv) idleState).running = false :=
  ⟨(worker_exclusion_and_latch defEnv Action.build (gather_params defEnv) busyState).1 rfl,
   (worker_exclusion_and_latch defEnv Action.build (gather_params defEnv) idleState).2 rfl⟩

/-- Claim C5: when the stripped `#inst_name` widget value (the image path)
is empty, the noVNC command builder fails with `MissingRequiredField`, and
the worker only logs the warning — the spawn trace is untouched (and the
`finally` clause still clears `running`). -/
theorem novnc_missing_image (env : Env) (p : Params) (s : AppState)
    (h : pyStrip env.instName = "") :
    worker_cmd env Action.novnc p = Except.error WErr.missingRequiredField ∧
    worker env Action.novnc p s =
      { s with log := s.log ++ ["Image path required for noVNC"], running := false } := by
  constructor
  · simp [worker_cmd, h]
  · simp [worker, worker_cmd, h, appLog]

theorem novnc_missing_image_witness :
    worker_cmd defEnv Action.novnc (gather_params defEnv) =
      Except.error WErr.missingRequiredField ∧
    worker defEnv Action.novnc (gather_params defEnv) idleState =
      { idleState with log := idleState.log ++ ["Image path required for noVNC"],
                       running := false } :=
  novnc_missing_image defEnv (gather_params defEnv) idleState (by decide)

/-- Claim C3: from an idle gate (`_elevate_pending` false), a free latch,
Deps selected, and an elevated install requested (elevate toggle plus a
python- or system-install toggle), the first `run_selected` spawns
nothing, leaves `running` false, and sets the gate pending; repeating it
on the resulting state (script resolvable) spawns exactly one process and
clears the gate. -/
theorem elevate_gate_two_step (env : Env) (s : AppState) (mp : String)
    (ha : s.selAction = some Action.deps) (hp : s.elevatePending = false)
    (hr : s.running = false) (he : env.elevate = true)
    (hi : (env.installPython || env.installSystem) = true)
    (hm : script_path env.fs "simetrio" = some mp) :
    (run_selected env s).spawned = s.spawned ∧
    (run_selected env s).running = false ∧
    (run_selected env s).elevatePending = true ∧
    (run_selected env (run_selected env s)).spawned.length = s.spawned.length + 1 ∧
    (run_selected env (run_selected env s)).elevatePending = false := by
  have hstep : run_selected env s =
      appLog (appLog { s with elevatePending := true }
          "You have requested an elevated installation (sudo).")
        "To confirm, click 'Run Selected' again. This prevents accidental sudo usage." := by
    simp [run_selected, ha, gather_params, he, hi, hp]
  refine ⟨?_, ?_, ?_, ?_, ?_⟩
  · rw [hstep]; simp [appLog]
  · rw [hstep]; simp [appLog, hr]
  · rw [hstep]; simp [appLog]
  · rw [hstep]
    simp [run_selected, ha, gather_params, he, hi, appLog, run_action, hr,
      worker, worker_cmd, hm]
  · rw [hstep]
    simp [run_selected, ha, gather_params, he, hi, appLog, run_action, hr,
      worker, worker_cmd, hm]

/-- An environment requesting an elevated python-deps install. -/
def elevEnv : Env :=
  { defEnv with installPython := true, elevate := true }

/-- An idle state with the Deps action selected. -/
def depsIdleState : AppState :=
  { idleState with selAction := some Action.deps }

theorem elevate_gate_two_step_witness :
    (run_selected elevEnv depsIdleState).spawned = depsIdleState.spawned ∧
    (run_selected elevEnv depsIdleState).running = false ∧
    (run_selected elevEnv depsIdleState).elevatePending = true ∧
    (run_selected elevEnv (run_selected elevEnv depsIdleState)).spawned.length =
      depsIdleState.spawned.length + 1 ∧
    (run_selected elevEnv (run_selected elevEnv depsIdleState)).elevatePending = false :=
  elevate_gate_two_step elevEnv depsIdleState "/repo/bin/simetrio" rfl rfl rfl rfl rfl
    (by decide)

/-- One buffer append inside `_append_log`'s per-line loop (lines 393-397):
append the line, then pop the oldest line whenever the length exceeds
5000. -/
def pushLine (buf : List String) (line : String) : List String :=
  if 5000 < (buf ++ [line]).length then (buf ++ [line]).drop 1 else buf ++ [line]

/-- `str(text).splitlines() or ['']` (line 393). -/
def splitOrEmpty (text : String) : List String :=
  match pySplitlines text with
  | [] => [""]
  | ls => ls

/-- `_append_log` (lines 388-403), restricted to its effect on the
internal `_log_buffer`; the best-effort mirror to the TextLog widget has
no observable state here. -/
def append_log (buf : List String) (text : String) : List String :=
  List.foldl pushLine buf (splitOrEmpty text)

lemma pushLine_length_le (buf : List String) (l : String) (h : buf.length ≤ 5000) :
    (pushLine buf l).length ≤ 5000 := by
  unfold pushLine
  by_cases hb : 5000 < (buf ++ [l]).length
  · rw [if_pos hb]
    simp only [List.length_drop, List.length_append, List.length_cons, List.length_nil] at *
    omega
  · rw [if_neg hb]
    simp only [List.length_append, List.length_cons, List.length_nil] at *
    omega

lemma foldl_pushLine_length_le (ls : List String) :
    ∀ buf : List String, buf.length ≤ 5000 →
      (List.foldl pushLine buf ls).length ≤ 5000 := by
  induction ls with
  | nil => intro buf h; simpa using h
  | cons m rest ih =>
    intro buf h
    rw [List.foldl_cons]
    exact ih _ (pushLine_length_le buf m h)

lemma foldl_pushLine_eq (ls : List String) :
    ∀ buf : List String, buf.length ≤ 5000 →
      List.foldl pushLine buf ls = (buf ++ ls).drop (buf.length + ls.length - 5000) := by
  induction ls with
  | nil =>
    intro buf h
    simp [Nat.sub_eq_zero_of_le h]
  | cons m rest ih =>
    intro buf h
    rw [List.foldl_cons]
    by_cases h5 : buf.length = 5000
    · obtain ⟨x, tl, rfl⟩ : ∃ x tl, buf = x :: tl := by
        cases buf with
        | nil => simp at h5
        | cons a b => exact ⟨a, b, rfl⟩
      have htl : tl.length = 4999 := by
        simp only [List.length_cons] at h5
        omega
      have hp : pushLine (x :: tl) m = tl ++ [m] := by
        unfold pushLine
        rw [if_pos (by simp only [List.length_append, List.length_cons, htl]; omega)]
        simp
      rw [hp, ih (tl ++ [m])
        (by simp only [List.length_append, List.length_cons, List.length_nil, htl]; omega)]
      have i1 : (tl ++ [m]).length + rest.length - 5000 = rest.length := by
        simp only [List.length_append, List.length_cons, List.length_nil, htl]
        omega
      have i2 : (x :: tl).length + (m :: rest).length - 5000 = rest.length + 1 := by
        simp only [List.length_cons, htl]
        omega
      rw [i1, i2]
      have e2 : (x :: tl) ++ m :: rest = x :: (tl ++ m :: rest) := by simp
      rw [e2, List.drop_succ_cons]
      have e1 : (tl ++ [m]) ++ rest = tl ++ m :: rest := by simp
      rw [e1]
    · have hlt : buf.length < 5000 := lt_of_le_of_ne h h5
      have hp : pushLine buf m = buf ++ [m] := by
        unfold pushLine
        rw [if_neg (by simp only [List.length_append, List.length_cons, List.length_nil, not_lt]; omega)]
      rw [hp, ih (buf ++ [m])
        (by simp only [List.length_append, List.length_cons, List.length_nil]; omega)]
      have e1 : (buf ++ [m]) ++ rest = buf ++ m :: rest := by simp
      have i1 : (buf ++ [m]).length + rest.length = buf.length + (m :: rest).length := by
        simp only [List.length_append, List.length_cons, List.length_nil]
        omega
      rw [e1, i1]

lemma foldl_append_log_single (msgs : List String) :
    ∀ buf : List String, (∀ m ∈ msgs, pySplitlines m = [m]) →
      List.foldl append_log buf msgs = List.foldl pushLine buf msgs := by
  induction msgs with
  | nil => intro buf _; rfl
  | cons m rest ih =>
    intro buf hall
    rw [List.foldl_cons, List.foldl_cons]
    have h1 : append_log buf m = pushLine buf m := by
      unfold append_log splitOrEmpty
      rw [hall m (by simp)]
      rfl
    rw [h1, ih _ (fun x hx => hall x (by simp [hx]))]

/-- Claim C4: the log buffer is capacity-bounded — any sequence of
`_append_log` calls starting from a buffer of at most 5000 lines leaves at
most 5000 lines — and appending 6000 single-line messages to an empty
buffer leaves exactly the last 5000 of them, in append order (oldest
evicted first). -/
theorem log_buffer_bound_and_eviction :
    (∀ (buf msgs : List String), buf.length ≤ 5000 →
      (List.foldl append_log buf msgs).length ≤ 5000) ∧
    (∀ msgs : List String, msgs.length = 6000 →
      (∀ m ∈ msgs, pySplitlines m = [m]) →
      List.foldl append_log [] msgs = msgs.drop 1000) := by
  constructor
  · intro buf msgs
    induction msgs generalizing buf with
    | nil => intro h; simpa using h
    | cons m rest ih =>
      intro h
      rw [List.foldl_cons]
      exact ih _ (foldl_pushLine_length_le _ _ h)
  · intro msgs hlen hall
    rw [foldl_append_log_single msgs [] hall,
      foldl_pushLine_eq msgs [] (by simp)]
    simp [hlen]

theorem log_buffer_witness :
    (List.foldl append_log ["a"] ["b", "c"]).length ≤ 5000 ∧
    List.foldl append_log [] (List.replicate 6000 "x") =
      (List.replicate 6000 "x").drop 1000 :=
  ⟨log_buffer_bound_and_eviction.1 ["a"] ["b", "c"] (by decide),
   log_buffer_bound_and_eviction.2 (List.replicate 6000 "x") (by rw [List.length_replicate])
     (by intro m hm; rw [List.eq_of_mem_replicate hm]; decide)⟩

/-- `repr(bool)` as interpolated by `%s` into the `python -c` source. -/
def pyBoolStr (b : Bool) : String :=
  if b then "True" else "False"

/-- The `python -c` source installing system binaries (lines 472-474,
535-537, 570-572), with the elevate flag interpolated. -/
def sysInstallArg (elevate : Bool) : String :=
  "import simetrio,sys; rc=simetrio.install_system_binaries(bins=('multipass','qemu-system-x86_64'), elevate=" ++ pyBoolStr elevate ++ "); sys.exit(rc)"

/-- The system-binaries installer argv. -/
def sys_install_cmd (env : Env) : List String :=
  [env.pythonExe, "-c", sysInstallArg env.elevate]

/-- The `python -c` source installing Python requirements (lines 485-488):
the elevated variant when the elevate toggle is set. -/
def pyInstallArg (elevate : Bool) : String :=
  if elevate then
    "import simetrio,sys; rc=simetrio.install_python_requirements_elevated(); sys.exit(rc)"
  else
    "import simetrio,sys; rc=simetrio.install_python_requirements(); sys.exit(rc)"

/-- The Python-requirements installer argv. -/
def py_install_cmd (env : Env) : List String :=
  [env.pythonExe, "-c", pyInstallArg env.elevate]

/-- The `simetrio deps` check argv (lines 444, 500, 548, 584), given the
resolved script path. -/
def deps_check_cmd (env : Env) (sp : String) : List String :=
  [env.pythonExe, sp, "deps"]

/-- State threaded through one `action_deps_flow` invocation: the trace of
processes it spawned, the texts passed to `_append_log`, and the
`_pkg_install_pending` latch. -/
structure FlowState where
  spawned : List (List String)
  log : List String
  pkgPending : Bool
deriving DecidableEq, Repr

/-- One `_append_log` event inside the flow. -/
def flowLog (s : FlowState) (m : String) : FlowState :=
  { s with log := s.log ++ [m] }

/-- Spawn a child and stream its rstripped output lines to the log: the
result is drawn from the environment at the current trace position. -/
def flowSpawn (env : Env) (cmd : List String) (s : FlowState) : FlowState × ProcRes :=
  let r := env.results s.spawned.length
  ({ s with spawned := s.spawned ++ [cmd], log := s.log ++ r.lines.map pyRstrip }, r)

/-- The accumulated `out` string of a process: the concatenation of its
raw lines (`out += line`, line 447). -/
def outOf (r : ProcRes) : String :=
  String.join r.lines

/-- Lines 484-507: install Python requirements (elevated variant per the
toggle); a non-zero exit aborts with the manual-intervention message, else
re-run the check and report. -/
def flowPyInstall (env : Env) (sp : String) (s : FlowState) : FlowState :=
  let cmdP := py_install_cmd env
  let s1 := flowLog s ("Running python installer: " ++ String.intercalate " " cmdP)
  let (s2, rP) := flowSpawn env cmdP s1
  if rP.exitCode ≠ 0 then
    flowLog s2 ("Python installation failed with " ++ toString rP.exitCode ++
      ". Please install manually.")
  else
    let s3 := flowLog s2 "Re-checking dependencies after install..."
    let (s4, rR) := flowSpawn env (deps_check_cmd env sp) s3
    if rR.exitCode = 0 then
      flowLog s4 "Dependencies satisfied after installation."
    else
      flowLog s4 "Dependencies remain missing after installation; please inspect output and install required system packages."

/-- Lines 456-508, the Missing-Python-packages branch: optionally install
system binaries first (toggle set; non-zero exit aborts), then the Python
requirements. -/
def flowPyBranch (env : Env) (sp : String) (s : FlowState) : FlowState :=
  let s1 := flowLog s "Missing Python packages detected. Attempting to install automatically..."
  if env.installSystem then
    let cmdS := sys_install_cmd env
    let s2 := flowLog s1 ("Running system installer: " ++ String.intercalate " " cmdS)
    let (s3, rS) := flowSpawn env cmdS s2
    if rS.exitCode ≠ 0 then
      flowLog s3 ("System installation failed with " ++ toString rS.exitCode ++
        ". Please install manually.")
    else
      flowPyInstall env sp s3
  else
    flowPyInstall env sp s1

/-- Lines 510-556, the Multipass-PKG branch: requires the system-deps
toggle and the two-step `_pkg_install_pending` confirmation before running
the installer; on success re-checks. -/
def flowPkgBranch (env : Env) (sp : String) (s : FlowState) : FlowState :=
  let s1 := flowLog s "Detected a downloaded Multipass PKG on macOS. This requires running the system installer to complete."
  if !env.installSystem then
    flowLog s1 "Enable \"Install system deps\" in the options to allow the TUI to run the PKG installer."
  else if !s1.pkgPending then
    flowLog { s1 with pkgPending := true }
      "To run the macOS PKG installer (requires admin) click \"Run Selected\" again to confirm."
  else
    let s2 := { s1 with pkgPending := false }
    let cmdS := sys_install_cmd env
    let s3 := flowLog s2 ("Running macOS PKG installer via: " ++ String.intercalate " " cmdS)
    let (s4, rS) := flowSpawn env cmdS s3
    if rS.exitCode ≠ 0 then
      flowLog s4 ("PKG installer run failed with " ++ toString rS.exitCode ++
        ". Check logs in build/logs or ~/.cache/simetrio/logs")
    else
      let s5 := flowLog s4 "Re-checking dependencies after PKG installer..."
      let (s6, rR) := flowSpawn env (deps_check_cmd env sp) s5
      if rR.exitCode = 0 then
        flowLog s6 "Dependencies satisfied after PKG installation."
      else
        flowLog s6 "Dependencies still missing after PKG installation; please inspect the logs and run manual steps if needed."

/-- Lines 558-592, the Missing-binaries branch with the system-deps toggle
set: install binaries directly (no confirmation gate), abort on non-zero
exit, else re-check. -/
def flowBinBranch (env : Env) (sp : String) (s : FlowState) : FlowState :=
  let s1 := flowLog s "Attempting to install missing system binaries..."
  let cmdS := sys_install_cmd env
  let s2 := flowLog s1 ("Running system install: " ++ String.intercalate " " cmdS)
  let (s3, rS) := flowSpawn env cmdS s2
  if rS.exitCode ≠ 0 then
    flowLog s3 ("System installation failed with " ++ toString rS.exitCode ++
      ". Please install manually.")
  else
    let s4 := flowLog s3 "Re-checking dependencies after system install..."
    let (s5, rR) := flowSpawn env (deps_check_cmd env sp) s4
    if rR.exitCode = 0 then
      flowLog s5 "Dependencies satisfied after system installation."
    else
      flowLog s5 "Dependencies remain missing after system installation; please inspect output and install required system packages."

/-- `action_deps_flow` (lines 440-596): run the check, stop on exit 0,
else dispatch on marker substrings of the captured output in source
order: Missing Python packages, then the Multipass PKG markers, then
Missing binaries (only acted on when the system-deps toggle is set,
otherwise falling through to the generic message). `none` models the
uncaught `FileNotFoundError` when the `simetrio` script cannot be
resolved (the background thread dies). -/
def action_deps_flow (env : Env) (pkgPending : Bool) : Option FlowState :=
  match script_path env.fs "simetrio" with
  | none => none
  | some sp =>
    let s1 := flowLog ⟨[], [], pkgPending⟩ "Starting dependency check..."
    let (s2, r) := flowSpawn env (deps_check_cmd env sp) s1
    let out := outOf r
    if r.exitCode = 0 then
      some (flowLog s2 "All dependencies satisfied.")
    else if strHas out "Missing Python packages" then
      some (flowPyBranch env sp s2)
    else if strHas out "Found Multipass PKG" || strHas out "Multipass PKG present" then
      some (flowPkgBranch env sp s2)
    else if strHas out "Missing binaries" && env.installSystem then
      some (flowBinBranch env sp s2)
    else
      some (flowLog s2 "Some binaries are missing; please install them manually and re-run.")

lemma sysArg_ne_deps : ∀ b : Bool, sysInstallArg b ≠ "deps" := by decide

lemma sysArg_ne_pyArg : ∀ b e : Bool, sysInstallArg b ≠ pyInstallArg e := by decide

/-- A concrete environment in which every process exits 0 while printing
the Missing-Python-packages marker. -/
def markerEnv : Env :=
  { defEnv with results := fun _ => ⟨0, ["Missing Python packages: textual\n"]⟩ }

/-- Claim C7 (counterexample): the check can exit 0 with the Missing-
Python-packages marker in its captured output; the flow then stops at the
satisfied message — with the system-deps toggle off it does not proceed to
the Python-requirements install step (only the check was spawned), so the
claim as stated fails at this input. -/
theorem deps_flow_marker_cex :
    (markerEnv.results 0).exitCode = 0 ∧
    strHas (outOf (markerEnv.results 0)) "Missing Python packages" = true ∧
    markerEnv.installSystem = false ∧
    (action_deps_flow markerEnv false).map FlowState.spawned =
      some [["python3", "/repo/bin/simetrio", "deps"]] ∧
    py_install_cmd markerEnv ≠ ["python3", "/repo/bin/simetrio", "deps"] := by
  refine ⟨rfl, by decide, rfl, by decide, by decide⟩

/-- Claim C7 (amended): when the check exits non-zero with the marker in
its output and the system-deps toggle is off, the flow spawns the check
and then immediately the Python-requirements installer (followed at most
by the re-check) — no system-installer process is ever spawned. -/
theorem deps_flow_skips_system_install (env : Env) (pp : Bool) (sp : String)
    (hm : script_path env.fs "simetrio" = some sp)
    (hrc : (env.results 0).exitCode ≠ 0)
    (hmk : strHas (outOf (env.results 0)) "Missing Python packages" = true)
    (hsys : env.installSystem = false) :
    ((action_deps_flow env pp).map FlowState.spawned =
        some [deps_check_cmd env sp, py_install_cmd env] ∨
     (action_deps_flow env pp).map FlowState.spawned =
        some [deps_check_cmd env sp, py_install_cmd env, deps_check_cmd env sp]) ∧
    ∀ (b : Bool) (st : FlowState), action_deps_flow env pp = some st →
      [env.pythonExe, "-c", sysInstallArg b] ∉ st.spawned := by
  have hsp : ∀ b : Bool,
      [env.pythonExe, "-c", sysInstallArg b] ≠ deps_check_cmd env sp := by
    intro b hEq
    have h3 := congrArg (fun l => l.getD 2 "") hEq
    simp [deps_check_cmd] at h3
    exact sysArg_ne_deps b h3
  have hpy : ∀ b : Bool,
      [env.pythonExe, "-c", sysInstallArg b] ≠ py_install_cmd env := by
    intro b hEq
    have h3 := congrArg (fun l => l.getD 2 "") hEq
    simp [py_install_cmd] at h3
    exact sysArg_ne_pyArg b env.elevate h3
  have hA : (action_deps_flow env pp).map FlowState.spawned =
        some [deps_check_cmd env sp, py_install_cmd env] ∨
      (action_deps_flow env pp).map FlowState.spawned =
        some [deps_check_cmd env sp, py_install_cmd env, deps_check_cmd env sp] := by
    by_cases h1 : (env.results 1).exitCode = 0
    · right
      by_cases h2 : (env.results 2).exitCode = 0 <;>
        simp [action_deps_flow, hm, flowSpawn, flowLog, hrc, hmk, flowPyBranch, hsys,
          flowPyInstall, h1, h2]
    · left
      simp [action_deps_flow, hm, flowSpawn, flowLog, hrc, hmk, flowPyBranch, hsys,
        flowPyInstall, h1]
  refine ⟨hA, ?_⟩
  intro b st hst
  rcases hA with h | h
  · rw [hst] at h
    simp only [Option.map_some', Option.some.injEq] at h
    rw [h]
    simp [List.mem_cons, hsp b, hpy b]
  · rw [hst] at h
    simp only [Option.map_some', Option.some.injEq] at h
    rw [h]
    simp [List.mem_cons, hsp b, hpy b]

/-- A concrete environment for C7: check fails with the Python-packages
marker, toggle off, every later process succeeds. -/
def c7Env : Env :=
  { defEnv with results := fun n =>
      if n = 0 then ⟨2, ["Missing Python packages: textual\n"]⟩ else ⟨0, ["ok\n"]⟩ }

theorem deps_flow_skips_system_install_witness :
    ((action_deps_flow c7Env false).map FlowState.spawned =
        some [deps_check_cmd c7Env "/repo/bin/simetrio", py_install_cmd c7Env] ∨
     (action_deps_flow c7Env false).map FlowState.spawned =
        some [deps_check_cmd c7Env "/repo/bin/simetrio", py_install_cmd c7Env,
          deps_check_cmd c7Env "/repo/bin/simetrio"]) ∧
    ∀ (b : Bool) (st : FlowState), action_deps_flow c7Env false = some st →
      [c7Env.pythonExe, "-c", sysInstallArg b] ∉ st.spawned :=
  deps_flow_skips_system_install c7Env false "/repo/bin/simetrio" (by decide) (by decide)
    (by decide) rfl

/-- Claim C8: in the Python-packages branch with the system-deps toggle
set, a non-zero exit of the system-binaries installer stops the flow right
there (no Python installer, no re-check) with the manual-intervention
message logged; and if it succeeds but the Python-requirements installer
exits non-zero, the flow stops before the re-check, again logging the
manual-intervention message. -/
theorem deps_flow_installer_abort (env : Env) (pp : Bool) (sp : String)
    (hm : script_path env.fs "simetrio" = some sp)
    (hrc : (env.results 0).exitCode ≠ 0)
    (hmk : strHas (outOf (env.results 0)) "Missing Python packages" = true)
    (hsys : env.installSystem = true) :
    ((env.results 1).exitCode ≠ 0 →
      (action_deps_flow env pp).map FlowState.spawned =
        some [deps_check_cmd env sp, sys_install_cmd env] ∧
      ∀ st : FlowState, action_deps_flow env pp = some st →
        ("System installation failed with " ++ toString (env.results 1).exitCode ++
          ". Please install manually.") ∈ st.log) ∧
    ((env.results 1).exitCode = 0 → (env.results 2).exitCode ≠ 0 →
      (action_deps_flow env pp).map FlowState.spawned =
        some [deps_check_cmd env sp, sys_install_cmd env, py_install_cmd env] ∧
      ∀ st : FlowState, action_deps_flow env pp = some st →
        ("Python installation failed with " ++ toString (env.results 2).exitCode ++
          ". Please install manually.") ∈ st.log) := by
  constructor
  · intro h1
    constructor
    · simp [action_deps_flow, hm, flowSpawn, flowLog, hrc, hmk, flowPyBranch, hsys,
        flowPyInstall, h1]
    · intro st hst
      simp [action_deps_flow, hm, flowSpawn, flowLog, hrc, hmk, flowPyBranch, hsys,
        flowPyInstall, h1] at hst
      rw [← hst]
      simp
  · intro h1 h2
    constructor
    · simp [action_deps_flow, hm, flowSpawn, flowLog, hrc, hmk, flowPyBranch, hsys,
        flowPyInstall, h1, h2]
    · intro st hst
      simp [action_deps_flow, hm, flowSpawn, flowLog, hrc, hmk, flowPyBranch, hsys,
        flowPyInstall, h1, h2] at hst
      rw [← hst]
      simp

/-- A concrete environment for C8: check fails with the marker, toggle
on, the system installer fails with exit 1. -/
def c8Env : Env :=
  { defEnv with installSystem := true, results := fun n =>
      if n = 0 then ⟨2, ["Missing Python packages: textual\n"]⟩ else ⟨1, ["err\n"]⟩ }

theorem deps_flow_installer_abort_witness :
    (action_deps_flow c8Env false).map FlowState.spawned =
      some [deps_check_cmd c8Env "/repo/bin/simetrio", sys_install_cmd c8Env] ∧
    ∀ st : FlowState, action_deps_flow c8Env false = some st →
      ("System installation failed with " ++ toString (c8Env.results 1).exitCode ++
        ". Please install manually.") ∈ st.log :=
  (deps_flow_installer_abort c8Env false "/repo/bin/simetrio" (by decide) (by decide)
    (by decide) rfl).1 (by decide)

/-- A filesystem where the `bin` directory exists but the script lives
only in the `scripts` directory. -/
def cexFs : Fs :=
  { binExists := true
    hasFile := fun l n =>
      match l with
      | Loc.scriptsDir => n == "x.sh"
      | _ => false
    root := "/repo" }

/-- Claim C6 (counterexample): with a `bin` directory present, a script
that exists only in the `scripts` directory is not found — `script_path`
raises — even though the script exists in one of the three locations the
claim says are searched: the selected directory is fixed at startup, and
the other scripts directory is never consulted. -/
theorem script_resolution_cex :
    cexFs.hasFile Loc.scriptsDir "x.sh" = true ∧
    script_path cexFs "x.sh" = none := by
  decide

/-- Claim C6 (amended): resolution consults only the startup-selected
scripts directory (`bin` if the `bin` directory exists, else `scripts`)
and then the repository root: a hit in the selected directory wins, a
selected-directory miss falls back to the root, and resolution fails with
`UnresolvedScript` exactly when the script is in neither place. -/
theorem script_resolution_order (fs : Fs) (n : String) :
    (fs.hasFile (selDir fs) n = true →
      script_path fs n = some (pathStr fs (selDir fs) n)) ∧
    (fs.hasFile (selDir fs) n = false → fs.hasFile Loc.rootDir n = true →
      script_path fs n = some (pathStr fs Loc.rootDir n)) ∧
    (script_path fs n = none ↔
      fs.hasFile (selDir fs) n = false ∧ fs.hasFile Loc.rootDir n = false) := by
  unfold script_path
  refine ⟨?_, ?_, ?_⟩
  · intro h
    simp [h]
  · intro h1 h2
    simp [h1, h2]
  · constructor
    · intro h
      by_cases h1 : fs.hasFile (selDir fs) n <;>
        by_cases h2 : fs.hasFile Loc.rootDir n <;> simp_all
    · rintro ⟨h1, h2⟩
      simp [h1, h2]

/-- A filesystem with no `bin` directory and the script in `scripts`. -/
def scriptsFs : Fs :=
  { binExists := false
    hasFile := fun l n =>
      match l with
      | Loc.scriptsDir => n == "a.sh"
      | _ => false
    root := "/repo" }

/-- A filesystem with a `bin` directory and the script only at the root. -/
def rootFs : Fs :=
  { binExists := true
    hasFile := fun l n =>
      match l with
      | Loc.rootDir => n == "c.sh"
      | _ => false
    root := "/repo" }

theorem script_resolution_order_witness :
    script_path scriptsFs "a.sh" = some (pathStr scriptsFs (selDir scriptsFs) "a.sh") ∧
    script_path rootFs "c.sh" = some (pathStr rootFs Loc.rootDir "c.sh") :=
  ⟨(script_resolution_order scriptsFs "a.sh").1 (by decide),
   (script_resolution_order rootFs "c.sh").2.1 (by decide) (by decide)⟩

/-- Environment for `_copy_log_to_clipboard`: the platform, whether
`pbcopy` can be spawned at all (it is launched unguarded on macOS), the
`shutil.which` availability of `wl-copy`/`xclip`, each utility's exit
code, and the path `tempfile.mkstemp` would yield. -/
structure ClipEnv where
  isDarwin : Bool
  pbcopySpawnable : Bool
  pbcopyRc : Int
  wlcopyOnPath : Bool
  wlcopyRc : Int
  xclipOnPath : Bool
  xclipRc : Int
  tmpPath : String

/-- Observable outcome of a clipboard export: which utilities were
spawned, in order; the temp file written (path and contents), if any; the
messages logged; and whether an exception escaped the method (to be
reported as `Copy failed` by the button handler). -/
structure ClipResult where
  attempts : List String
  fileWritten : Option (String × String)
  log : List String
  raised : Bool
deriving DecidableEq, Repr

/-- Lines 433-437: write the joined text to a fresh temp file and log its
path. -/
def clipFallback (env : ClipEnv) (data : String) (tried : List String) : ClipResult :=
  ⟨tried, some (env.tmpPath, data),
    ["Clipboard utilities not found; log written to: " ++ env.tmpPath], false⟩

/-- Lines 426-432: try `xclip` when on PATH; success ends the export,
failure falls through to the temp file. -/
def clipTryXclip (env : ClipEnv) (data : String) (tried : List String) : ClipResult :=
  if env.xclipOnPath then
    if env.xclipRc = 0 then
      ⟨tried ++ ["xclip"], none, ["Log copied to clipboard (xclip)."], false⟩
    else clipFallback env data (tried ++ ["xclip"])
  else clipFallback env data tried

/-- Lines 419-425: try `wl-copy` when on PATH; failure falls through to
`xclip`. -/
def clipTryWlcopy (env : ClipEnv) (data : String) (tried : List String) : ClipResult :=
  if env.wlcopyOnPath then
    if env.wlcopyRc = 0 then
      ⟨tried ++ ["wl-copy"], none, ["Log copied to clipboard (wl-copy)."], false⟩
    else clipTryXclip env data (tried ++ ["wl-copy"])
  else clipTryXclip env data tried

/-- `_copy_log_to_clipboard` (lines 405-437): join the buffer with
newlines; an empty result only logs; on macOS `pbcopy` is spawned without
a `shutil.which` guard, so an absent `pbcopy` raises out of the method;
otherwise the utilities are tried in order pbcopy (macOS only), wl-copy,
xclip, with the temp-file fallback last. -/
def copy_log_to_clipboard (env : ClipEnv) (buffer : List String) : ClipResult :=
  let data := String.intercalate "\n" buffer
  if data = "" then ⟨[], none, ["No log data to copy."], false⟩
  else if env.isDarwin then
    if !env.pbcopySpawnable then ⟨[], none, [], true⟩
    else if env.pbcopyRc = 0 then
      ⟨["pbcopy"], none, ["Log copied to clipboard (pbcopy)."], false⟩
    else clipTryWlcopy env data ["pbcopy"]
  else clipTryWlcopy env data []

/-- macOS with no clipboard utility present at all. -/
def darwinNoPbEnv : ClipEnv :=
  ⟨true, false, 0, false, 0, false, 0, "/tmp/simetrio-log-abc.txt"⟩

/-- Claim C9 (counterexample): on macOS with no clipboard utility
available and a non-empty buffer, `pbcopy` is spawned unguarded, the
`FileNotFoundError` escapes the method, and no temporary file is written —
the claimed unconditional file fallback does not happen at this input. -/
theorem clipboard_darwin_cex :
    darwinNoPbEnv.pbcopySpawnable = false ∧
    darwinNoPbEnv.wlcopyOnPath = false ∧
    darwinNoPbEnv.xclipOnPath = false ∧
    copy_log_to_clipboard darwinNoPbEnv ["boom"] = ⟨[], none, [], true⟩ := by
  decide

/-- Claim C9 (amended): for a buffer whose newline-join is non-empty, when
every utility that can launch exits non-zero and `pbcopy` is launchable
whenever the platform is macOS, the export attempts the utilities in the
fixed order pbcopy (macOS only), wl-copy, xclip, then writes the joined
buffer — byte for byte — to the fresh temp file and logs its path. -/
theorem clipboard_fallback_exact (env : ClipEnv) (buffer : List String)
    (hne : String.intercalate "\n" buffer ≠ "")
    (hpb : env.isDarwin = true → env.pbcopySpawnable = true ∧ env.pbcopyRc ≠ 0)
    (hwl : env.wlcopyOnPath = true → env.wlcopyRc ≠ 0)
    (hx : env.xclipOnPath = true → env.xclipRc ≠ 0) :
    copy_log_to_clipboard env buffer =
      ⟨(if env.isDarwin then ["pbcopy"] else []) ++
        (if env.wlcopyOnPath then ["wl-copy"] else []) ++
        (if env.xclipOnPath then ["xclip"] else []),
       some (env.tmpPath, String.intercalate "\n" buffer),
       ["Clipboard utilities not found; log written to: " ++ env.tmpPath], false⟩ := by
  unfold copy_log_to_clipboard clipTryWlcopy clipTryXclip clipFallback
  by_cases hd : env.isDarwin <;> by_cases hw : env.wlcopyOnPath <;>
    by_cases hxp : env.xclipOnPath <;> simp_all

/-- Linux with no clipboard utility on PATH. -/
def noneClipEnv : ClipEnv :=
  ⟨false, false, 0, false, 0, false, 0, "/tmp/simetrio-log-xyz.txt"⟩

theorem clipboard_fallback_exact_witness :
    copy_log_to_clipboard noneClipEnv ["a"] =
      ⟨[], some (noneClipEnv.tmpPath, String.intercalate "\n" ["a"]),
       ["Clipboard utilities not found; log written to: " ++ noneClipEnv.tmpPath],
       false⟩ :=
  clipboard_fallback_exact noneClipEnv ["a"] (by decide) (by decide) (by decide) (by decide)

/-- Claim C10: with an empty log buffer the export only logs the
no-data message — no utility is spawned, no temp file is written, and
nothing is raised. -/
theorem clipboard_empty_noop (env : ClipEnv) (buffer : List String)
    (h : buffer = []) :
    copy_log_to_clipboard env buffer = ⟨[], none, ["No log data to copy."], false⟩ := by
  subst h
  rfl

theorem clipboard_empty_noop_witness :
    copy_log_to_clipboard noneClipEnv [] =
      ⟨[], none, ["No log data to copy."], false⟩ :=
  clipboard_empty_noop noneClipEnv [] rfl

end Simetrio
